import Mathlib

/-
Verification of the ts_store repository: a single-value timestamp store
(`dataStore` backed by `sync/atomic.Value`) behind two HTTP handlers
(`update`, `retrieve`), plus the `timestamp` parsing helpers.

The embedding follows src/main.go:
  * Go `time.Time` values produced by `time.Unix(sec, 0)` are modelled by
    `GoTime`, carrying the internal second count (Unix seconds shifted by
    the Go constant `unixToInternal = 62135596800`) and the nanosecond
    part (always 0 in this repository).  Go int64 arithmetic wraps, so the
    shift is taken modulo 2^64 in two's complement, via `wrap64`.
  * The `atomic.Value` cell is an `Option GoTime` (`none` = nothing ever
    stored, in which case the Go type assertion `val.(time.Time)` inside
    `dataStore.get` panics).  A possibly-nil `*dataStore` receiver is an
    `Option StoreCell`; the nil checks in `store`/`get` panic, modelled
    with `Except String`.
  * `strconv.ParseInt(s, 10, 64)` is `goParseInt10_64` (optional sign,
    decimal digits, signed 64-bit range check);
    `strconv.FormatInt(v, 10)` is `formatInt`.
  * The handlers are pure functions from a `Request` (method,
    Content-Type header value, optional body) and the current cell to a
    response (and, for `update`, the new cell).  `http.Error(w, msg, c)`
    answers status `c` with body `msg ++ "\n"`.
    `http.MaxBytesReader(w, r.Body, 1024)` makes `io.ReadAll` fail
    exactly when the body exceeds 1024 bytes.
-/

namespace TsStore

/-- Two's-complement wrap of an integer into the signed 64-bit range
`[-2^63, 2^63)`, the behaviour of Go int64 overflow. -/
def wrap64 (x : Int) : Int :=
  (x + 2 ^ 63) % 2 ^ 64 - 2 ^ 63

/-- The Go `time` package constant `unixToInternal`: seconds from
January 1, year 1 to January 1, 1970. -/
def unixToInternal : Int := 62135596800

/-- A Go `time.Time` as produced in this repository: internal second
count plus the (always zero here) nanosecond part. -/
structure GoTime where
  sec : Int
  nsec : Int
  deriving DecidableEq

/-- Go `time.Unix(sec, 0)`: shifts the Unix second count to the internal
epoch, with int64 wraparound. -/
def timeUnix (sec : Int) : GoTime :=
  { sec := wrap64 (sec + unixToInternal), nsec := 0 }

/-- Method `Unix()` of Go `time.Time`: shifts back to the Unix epoch,
again with int64 wraparound. -/
def GoTime.unix (t : GoTime) : Int :=
  wrap64 (t.sec - unixToInternal)

/-- Contents of the `atomic.Value` field `ds.ts`: `none` when no
`Store` has ever been executed on it. -/
abbrev StoreCell := Option GoTime

/-- The effect of `ds.ts.Store(ts)` on the cell. -/
def cellStore (_cell : StoreCell) (ts : GoTime) : StoreCell :=
  some ts

/-- The result of `ds.ts.Load()` on the cell (`none` models the nil
interface value returned when nothing was ever stored). -/
def cellLoad (cell : StoreCell) : Option GoTime :=
  cell

/-- Method `(ds *dataStore) store(ts time.Time)`: panics on a nil
receiver, otherwise atomically replaces the cell contents. -/
def dataStore.store (ds : Option StoreCell) (ts : GoTime) : Except String StoreCell :=
  match ds with
  | none => .error "writing to uninitialized dataStore"
  | some cell => .ok (cellStore cell ts)

/-- Method `(ds *dataStore) get() time.Time`: panics on a nil receiver;
otherwise loads the cell and performs the type assertion
`val.(time.Time)`, which panics when the cell was never stored to. -/
def dataStore.get (ds : Option StoreCell) : Except String GoTime :=
  match ds with
  | none => .error "reading from uninitialized dataStore"
  | some cell =>
    match cellLoad cell with
    | none => .error "interface conversion: interface is nil, not time.Time"
    | some t => .ok t

/-- The expression `&dataStore\x7b\x7d` in `initDataStore`: a non-nil
receiver whose atomic cell has never been stored to. -/
def newDataStore : Option StoreCell := some none

/-- Function `initDataStore()`: creates the store and immediately calls
`th.store(time.Unix(0, 0))`. -/
def initDataStore : Option StoreCell :=
  match dataStore.store newDataStore (timeUnix 0) with
  | .ok cell => some cell
  | .error _ => newDataStore

/-- Value of a decimal digit character, `none` for any other character
(matching `strconv`, which rejects every non-digit in base 10). -/
def digitVal (c : Char) : Option Nat :=
  if '0' ≤ c ∧ c ≤ '9' then some (c.toNat - '0'.toNat) else none

/-- Accumulate the value of a digit string, failing on the first
non-digit, as `strconv.ParseUint` does in base 10. -/
def parseDigits : List Char → Nat → Option Nat
  | [], acc => some acc
  | c :: cs, acc =>
    match digitVal c with
    | none => none
    | some d => parseDigits cs (acc * 10 + d)

/-- Digit-and-range stage of `strconv.ParseInt(s, 10, 64)` after the
sign has been stripped: one or more decimal digits whose signed value
fits in int64 (`ParseUint` accumulation plus the int64 cutoff check);
`none` on every syntax or range error. -/
def goParseIntCore (neg : Bool) (rest : List Char) : Option Int :=
  match rest with
  | [] => none
  | _ :: _ =>
    match parseDigits rest 0 with
    | none => none
    | some n =>
      if neg then
        if (n : Int) > 2 ^ 63 then none else some (-(n : Int))
      else
        if (n : Int) ≥ 2 ^ 63 then none else some (n : Int)

/-- Go `strconv.ParseInt(s, 10, 64)` as a partial function: `some v`
exactly when `s` is an optional sign followed by one or more decimal
digits whose signed value fits in int64; `none` on every syntax or
range error (the caller `toInt64` only distinguishes error from
success). -/
def goParseInt10_64 (s : String) : Option Int :=
  match s.data with
  | [] => none
  | '-' :: cs => goParseIntCore true cs
  | '+' :: cs => goParseIntCore false cs
  | c :: cs => goParseIntCore false (c :: cs)

/-- Go `strconv.FormatInt(v, 10)`: minimal decimal rendering with a
leading minus sign for negative values. -/
def formatInt (v : Int) : String := toString v

/-- The `timestamp` string type of src/main.go. -/
abbrev timestamp := String

/-- Method `timestamp.toInt64`: parse as base-10 int64, replacing any
parse error by `errors.New("invalid timestamp")`. -/
def timestamp.toInt64 (ts : timestamp) : Except String Int :=
  match goParseInt10_64 ts with
  | none => .error "invalid timestamp"
  | some v => .ok v

/-- Method `timestamp.toUnixTime`: parse, reject negative values with a
distinct error, otherwise build `time.Unix(v, 0)`. -/
def timestamp.toUnixTime (ts : timestamp) : Except String GoTime :=
  match timestamp.toInt64 ts with
  | .error e => .error e
  | .ok v =>
    if v < 0 then .error "timestamp supplied is negative"
    else .ok (timeUnix v)

/-- The parts of an inbound HTTP request the handlers inspect: method,
the `Content-Type` header value (empty when absent), and the body. -/
structure Request where
  method : String
  contentType : String
  body : Option String
  deriving DecidableEq

/-- The parts of the handler response the spec talks about: status code,
the `Content-Type` header the handler set (if any), and the body. -/
structure HttpResponse where
  status : Nat
  contentType : Option String
  body : String
  deriving DecidableEq

/-- Go `http.Error(w, msg, code)`: plain-text error body terminated by
a newline. -/
def httpError (msg : String) (code : Nat) : HttpResponse :=
  { status := code
    contentType := some "text/plain; charset=utf-8"
    body := msg ++ "\n" }

/-- The constant `maxReqBytes` of src/main.go. -/
def maxReqBytes : Nat := 1024

/-- Handler `update(w, r)`: method, content-type, body presence and
body-size guards, then `timestamp.toUnixTime`; on success stores the
parsed time and answers 200 with an empty body, otherwise leaves the
cell untouched. -/
def update (r : Request) (cell : StoreCell) : HttpResponse × StoreCell :=
  if r.method ≠ "PUT" then
    (httpError "method not allowed" 405, cell)
  else if r.contentType ≠ "text/plain" then
    (httpError "only text/plain content-type is allowed" 400, cell)
  else
    match r.body with
    | none => (httpError "request body missing" 400, cell)
    | some data =>
      if data.utf8ByteSize > maxReqBytes then
        (httpError "invalid request body" 400, cell)
      else
        match timestamp.toUnixTime data with
        | .error _ => (httpError "invalid timestamp in request body" 400, cell)
        | .ok t =>
          ({ status := 200, contentType := none, body := "" }, cellStore cell t)

/-- Handler `retrieve(w, r)`: method guard, then answers 200 text/plain
with `strconv.FormatInt(th.get().Unix(), 10)`; propagates the panic of
`get` on a never-stored cell. -/
def retrieve (r : Request) (cell : StoreCell) : Except String HttpResponse :=
  if r.method ≠ "GET" then
    .ok (httpError "method not allowed" 405)
  else
    match cellLoad cell with
    | none => .error "interface conversion: interface is nil, not time.Time"
    | some t =>
      .ok { status := 200, contentType := some "text/plain", body := formatInt t.unix }

/-- An atomic operation on the store, as issued by a concurrent caller:
`atomic.Value` makes each `Store` and each `Load` a single indivisible
step, so an execution of concurrent `store`/`get` calls is an arbitrary
interleaving, i.e. a list of these operations. -/
inductive Op where
  | store (t : GoTime)
  | get
  deriving DecidableEq

/-- Run an interleaving of operations on the cell, collecting the value
observed by each `get`. -/
def runOps : List Op → StoreCell → StoreCell × List (Option GoTime)
  | [], cell => (cell, [])
  | Op.store t :: rest, cell => runOps rest (cellStore cell t)
  | Op.get :: rest, cell =>
    ((runOps rest cell).1, cellLoad cell :: (runOps rest cell).2)

/-- Fold a sequence of sequential `store` calls over the cell. -/
def runStores (cell : StoreCell) (ts : List GoTime) : StoreCell :=
  ts.foldl cellStore cell

/-- A concrete 1025-byte request body (one byte over `maxReqBytes`). -/
def bigBody : String := String.mk (List.replicate 1025 'a')

/-- Shorthand for the well-formed PUT request carrying body `b`. -/
def putReq (b : String) : Request :=
  { method := "PUT", contentType := "text/plain", body := some b }

/-- Shorthand for the plain GET request sent to `/retrieve`. -/
def getReq : Request :=
  { method := "GET", contentType := "", body := none }

/-! ## Helper lemmas -/

/-- Round trip of the internal-epoch shift: for every Unix second count
in int64 range, `time.Unix(v, 0).Unix() = v` (the two int64 wraparounds
cancel). -/
theorem unix_timeUnix (v : Int) (h0 : -(2 ^ 63) ≤ v) (h1 : v < 2 ^ 63) :
    (timeUnix v).unix = v := by
  simp only [timeUnix, GoTime.unix, wrap64, unixToInternal]
  omega

/-- Every value observed by a `get` in an interleaving is the cell's
starting contents or the argument of some `store` of the interleaving. -/
theorem runOps_mem (ops : List Op) :
    ∀ (cell : StoreCell) (r : Option GoTime), r ∈ (runOps ops cell).2 →
      r = cellLoad cell ∨ ∃ t, Op.store t ∈ ops ∧ r = some t := by
  induction ops with
  | nil =>
    intro cell r h
    simp [runOps] at h
  | cons op rest ih =>
    intro cell r h
    cases op with
    | store t =>
      rcases ih (cellStore cell t) r (by simpa [runOps] using h) with h' | ⟨t', ht', rfl⟩
      · exact Or.inr ⟨t, by simp, by simpa [cellLoad, cellStore] using h'⟩
      · exact Or.inr ⟨t', by simp [ht'], rfl⟩
    | get =>
      simp only [runOps, List.mem_cons] at h
      rcases h with rfl | h'
      · exact Or.inl rfl
      · rcases ih cell r h' with h'' | ⟨t', ht', rfl⟩
        · exact Or.inl h''
        · exact Or.inr ⟨t', by simp [ht'], rfl⟩

/-- Range of the digit stage: an accepted value fits in int64. -/
theorem goParseIntCore_range (neg : Bool) (rest : List Char) (v : Int)
    (h : goParseIntCore neg rest = some v) :
    -(2 ^ 63) ≤ v ∧ v < 2 ^ 63 := by
  unfold goParseIntCore at h
  split at h
  · simp at h
  · split at h
    · simp at h
    · split at h <;> split at h <;> simp_all <;> omega

/-- Range of `ParseInt`: an accepted value fits in int64. -/
theorem goParseInt_range (s : String) (v : Int)
    (h : goParseInt10_64 s = some v) :
    -(2 ^ 63) ≤ v ∧ v < 2 ^ 63 := by
  unfold goParseInt10_64 at h
  split at h
  · simp at h
  · exact goParseIntCore_range _ _ _ h
  · exact goParseIntCore_range _ _ _ h
  · exact goParseIntCore_range _ _ _ h

/-- A body that `ParseInt` rejects makes `toUnixTime` fail with the
`toInt64` error string. -/
theorem toUnixTime_parse_fail (s : String) (h : goParseInt10_64 s = none) :
    timestamp.toUnixTime s = .error "invalid timestamp" := by
  simp [timestamp.toUnixTime, timestamp.toInt64, h]

/-- A body parsing to a negative value makes `toUnixTime` fail with the
negative-value error string. -/
theorem toUnixTime_negative (s : String) (v : Int)
    (hp : goParseInt10_64 s = some v) (hv : v < 0) :
    timestamp.toUnixTime s = .error "timestamp supplied is negative" := by
  simp [timestamp.toUnixTime, timestamp.toInt64, hp, hv]

/-- A body parsing to a non-negative value makes `toUnixTime` succeed
with `time.Unix(v, 0)`. -/
theorem toUnixTime_ok (s : String) (v : Int)
    (hp : goParseInt10_64 s = some v) (hv : 0 ≤ v) :
    timestamp.toUnixTime s = .ok (timeUnix v) := by
  simp [timestamp.toUnixTime, timestamp.toInt64, hp, Int.not_lt.mpr hv]

/-- A well-formed PUT whose body fits the size limit but fails
`toUnixTime` is answered 400 with the fixed message, cell untouched. -/
theorem update_toUnixTime_error (data : String) (cell : StoreCell) (e : String)
    (hlen : data.utf8ByteSize ≤ maxReqBytes)
    (ht : timestamp.toUnixTime data = .error e) :
    update (putReq data) cell =
      (httpError "invalid timestamp in request body" 400, cell) := by
  simp [update, putReq, Nat.not_lt.mpr hlen, ht]

/-- A well-formed PUT whose body fits the size limit and parses to a
non-negative value stores `time.Unix(v, 0)` and is answered 200. -/
theorem update_ok (data : String) (cell : StoreCell) (v : Int)
    (hlen : data.utf8ByteSize ≤ maxReqBytes)
    (hp : goParseInt10_64 data = some v) (hv : 0 ≤ v) :
    update (putReq data) cell =
      ({ status := 200, contentType := none, body := "" }, some (timeUnix v)) := by
  simp [update, putReq, Nat.not_lt.mpr hlen, toUnixTime_ok data v hp hv, cellStore]

/-! ## Claim theorems -/

/-- C1: for every non-negative int64 value `v` (including `v = 0` and
`v = 2^63 - 1`), after `store(time.Unix(v, 0))` a subsequent `get()`
returns a time whose `Unix()` equals `v`; and in any sequential series
of stores, `get` observes the most recent one. -/
theorem store_get_roundtrip (v : Int) (h0 : 0 ≤ v) (h1 : v < 2 ^ 63)
    (cell : StoreCell) (prev : List GoTime) (t : GoTime) :
    dataStore.get (some (cellStore cell (timeUnix v))) = .ok (timeUnix v) ∧
    (timeUnix v).unix = v ∧
    cellLoad (runStores cell (prev ++ [t])) = some t := by
  refine ⟨rfl, unix_timeUnix v (by omega) h1, ?_⟩
  simp [runStores, cellLoad, List.foldl_append, cellStore]

/-- Witness for C1 at the boundary `v = 2^63 - 1 = max signed 64-bit`. -/
theorem store_get_roundtrip_boundary :
    dataStore.get (some (cellStore none (timeUnix 9223372036854775807))) =
      .ok (timeUnix 9223372036854775807) ∧
    (timeUnix 9223372036854775807).unix = 9223372036854775807 ∧
    cellLoad (runStores none ([] ++ [timeUnix 0])) = some (timeUnix 0) :=
  store_get_roundtrip 9223372036854775807 (by decide) (by decide) none [] (timeUnix 0)

/-- C2: in every interleaving of atomic `store`/`get` operations on the
initialized store, each `get` observes the initial epoch-zero value or
the argument of some `store` of the interleaving, never a mixture; each
operation is a single atomic step (the wait-free `atomic.Value`
`Store`/`Load`, no external lock). -/
theorem get_no_tearing (ops : List Op) (r : Option GoTime)
    (h : r ∈ (runOps ops (cellStore none (timeUnix 0))).2) :
    r = some (timeUnix 0) ∨ ∃ t, Op.store t ∈ ops ∧ r = some t := by
  rcases runOps_mem ops _ r h with h' | h'
  · exact Or.inl (by simpa [cellLoad, cellStore] using h')
  · exact Or.inr h'

/-- Witness for C2 on the interleaving `store(5); get`. -/
theorem get_no_tearing_instance :
    some (timeUnix 5) = some (timeUnix 0) ∨
      ∃ t, Op.store t ∈ [Op.store (timeUnix 5), Op.get] ∧ some (timeUnix 5) = some t :=
  get_no_tearing [Op.store (timeUnix 5), Op.get] (some (timeUnix 5)) (by decide)

/-- C3 counterexample: on a freshly created `dataStore` on which no
`store()` has executed, `get()` does not return epoch zero: the type
assertion on the nil interface value panics. -/
theorem fresh_get_panics :
    dataStore.get newDataStore =
      .error "interface conversion: interface is nil, not time.Time" ∧
    ¬ ∃ t, dataStore.get newDataStore = Except.ok t ∧ t.unix = 0 := by
  constructor
  · rfl
  · rintro ⟨t, ht, -⟩
    simp [dataStore.get, newDataStore, cellLoad] at ht

/-- C3 amended: a store freshly initialized by `initDataStore` — which
itself performs `store(time.Unix(0, 0))` — returns epoch zero from
`get()`; a `get()` on a bare store before any `store()` panics instead
of returning a value. -/
theorem init_get_epoch_zero :
    dataStore.get initDataStore = .ok (timeUnix 0) ∧ (timeUnix 0).unix = 0 :=
  ⟨rfl, by decide⟩

/-- C4: every request the update handler rejects (any non-200 answer)
leaves the stored cell unchanged. -/
theorem update_rejected_preserves_store (r : Request) (cell : StoreCell)
    (h : (update r cell).1.status ≠ 200) :
    (update r cell).2 = cell := by
  by_cases hm : r.method = "PUT"
  · by_cases hct : r.contentType = "text/plain"
    · match hb : r.body with
      | none => simp [update, hm, hct, hb]
      | some data =>
        by_cases hlen : data.utf8ByteSize > maxReqBytes
        · simp [update, hm, hct, hb, hlen]
        · match ht : timestamp.toUnixTime data with
          | .error e => simp [update, hm, hct, hb, hlen, ht]
          | .ok t => exact absurd (by simp [update, hm, hct, hb, hlen, ht]) h
    · simp [update, hm, hct]
  · simp [update, hm]

/-- Witness for C4: a wrong-method request is rejected and the cell
keeps its previous value. -/
theorem update_rejected_preserves_store_instance :
    (update getReq (some (timeUnix 7))).1.status ≠ 200 ∧
    (update getReq (some (timeUnix 7))).2 = some (timeUnix 7) :=
  ⟨by decide, update_rejected_preserves_store getReq (some (timeUnix 7)) (by decide)⟩

/-- C5: a body `ParseInt` rejects makes `toUnixTime` fail with
`"invalid timestamp"` and the handler answer 400
`"invalid timestamp in request body"`; a body parsing negative makes it
fail with the distinct `"timestamp supplied is negative"` error, also
surfaced as a 400; the cell is unchanged in both cases. -/
theorem update_parse_validation (body : String) (cell : StoreCell)
    (hlen : body.utf8ByteSize ≤ maxReqBytes) :
    (goParseInt10_64 body = none →
      timestamp.toUnixTime body = .error "invalid timestamp" ∧
      update (putReq body) cell =
        (httpError "invalid timestamp in request body" 400, cell)) ∧
    (∀ v : Int, goParseInt10_64 body = some v → v < 0 →
      timestamp.toUnixTime body = .error "timestamp supplied is negative" ∧
      update (putReq body) cell =
        (httpError "invalid timestamp in request body" 400, cell)) := by
  constructor
  · intro hp
    have ht := toUnixTime_parse_fail body hp
    exact ⟨ht, update_toUnixTime_error body cell _ hlen ht⟩
  · intro v hp hv
    have ht := toUnixTime_negative body v hp hv
    exact ⟨ht, update_toUnixTime_error body cell _ hlen ht⟩

/-- Witness for C5 on the unparsable body `"notvalidts"`. -/
theorem update_parse_validation_instance :
    timestamp.toUnixTime "notvalidts" = .error "invalid timestamp" ∧
    update (putReq "notvalidts") (some (timeUnix 1000)) =
      (httpError "invalid timestamp in request body" 400, some (timeUnix 1000)) :=
  (update_parse_validation "notvalidts" (some (timeUnix 1000)) (by decide)).1 (by decide)

/-- C6 counterexample: a malformed body and a negative body receive the
same user-visible 400 response body, so the messages do not differ per
cause. -/
theorem update_same_body_both_causes :
    (update (putReq "notvalidts") (some (timeUnix 0))).1.body =
      (update (putReq "-1") (some (timeUnix 0))).1.body ∧
    (update (putReq "-1") (some (timeUnix 0))).1.body =
      "invalid timestamp in request body\n" := by
  constructor <;> decide

/-- C6 amended: the two validation causes produce distinct internal
error strings in `toUnixTime`, but the update handler surfaces both as
the same user-visible 400 body `"invalid timestamp in request body\n"`. -/
theorem update_distinct_internal_errors (b1 b2 : String) (v : Int)
    (h1 : goParseInt10_64 b1 = none)
    (h2 : goParseInt10_64 b2 = some v) (hv : v < 0)
    (hl1 : b1.utf8ByteSize ≤ maxReqBytes) (hl2 : b2.utf8ByteSize ≤ maxReqBytes)
    (cell : StoreCell) :
    timestamp.toUnixTime b1 = .error "invalid timestamp" ∧
    timestamp.toUnixTime b2 = .error "timestamp supplied is negative" ∧
    (update (putReq b1) cell).1.body = "invalid timestamp in request body\n" ∧
    (update (putReq b2) cell).1.body = "invalid timestamp in request body\n" := by
  have ht1 := toUnixTime_parse_fail b1 h1
  have ht2 := toUnixTime_negative b2 v h2 hv
  refine ⟨ht1, ht2, ?_, ?_⟩
  · rw [update_toUnixTime_error b1 cell _ hl1 ht1]; rfl
  · rw [update_toUnixTime_error b2 cell _ hl2 ht2]; rfl

/-- Witness for C6 amended on bodies `"abc"` and `"-5"`. -/
theorem update_distinct_internal_errors_instance :
    timestamp.toUnixTime "abc" = .error "invalid timestamp" ∧
    timestamp.toUnixTime "-5" = .error "timestamp supplied is negative" ∧
    (update (putReq "abc") (some (timeUnix 0))).1.body =
      "invalid timestamp in request body\n" ∧
    (update (putReq "-5") (some (timeUnix 0))).1.body =
      "invalid timestamp in request body\n" :=
  update_distinct_internal_errors "abc" "-5" (-5) (by decide) (by decide) (by decide)
    (by decide) (by decide) (some (timeUnix 0))

/-- C7: a PUT with the right content type whose body exceeds 1024 bytes
is answered 400 `"invalid request body"` with the cell untouched, and a
request whose body is at most 1024 bytes is never rejected with the
size-limit message. -/
theorem update_body_size_guard (r : Request) (cell : StoreCell) (data : String)
    (hb : r.body = some data) :
    (r.method = "PUT" → r.contentType = "text/plain" →
      data.utf8ByteSize > maxReqBytes →
      update r cell = (httpError "invalid request body" 400, cell)) ∧
    (data.utf8ByteSize ≤ maxReqBytes →
      (update r cell).1.body ≠ "invalid request body\n") := by
  constructor
  · intro hm hct hlen
    simp [update, hm, hct, hb, hlen]
  · intro hlen
    have hl : ¬ (data.utf8ByteSize > maxReqBytes) := Nat.not_lt.mpr hlen
    by_cases hm : r.method = "PUT"
    · by_cases hct : r.contentType = "text/plain"
      · match ht : timestamp.toUnixTime data with
        | .error e =>
          rw [show (update r cell).1.body = "invalid timestamp in request body\n" by
            simp [update, hm, hct, hb, hl, ht, httpError]]
          decide
        | .ok t =>
          rw [show (update r cell).1.body = "" by simp [update, hm, hct, hb, hl, ht]]
          decide
      · rw [show (update r cell).1.body = "only text/plain content-type is allowed\n" by
          simp [update, hm, hct, httpError]]
        decide
    · rw [show (update r cell).1.body = "method not allowed\n" by
        simp [update, hm, httpError]]
      decide

set_option maxRecDepth 20000 in
/-- Witness for C7 on a 1025-byte body. -/
theorem update_body_size_guard_instance :
    update (putReq bigBody) (some (timeUnix 0)) =
      (httpError "invalid request body" 400, some (timeUnix 0)) :=
  (update_body_size_guard (putReq bigBody) (some (timeUnix 0)) bigBody rfl).1
    rfl rfl (by decide)

/-- C8: the retrieve handler answers 405 `"method not allowed"` to any
non-GET request, and answers any GET with 200, content type text/plain
and body the decimal rendering of the stored time's epoch seconds. -/
theorem retrieve_contract (r : Request) (cell : StoreCell) (t : GoTime) :
    (r.method ≠ "GET" → retrieve r cell = .ok (httpError "method not allowed" 405)) ∧
    (r.method = "GET" → cell = some t →
      retrieve r cell =
        .ok { status := 200, contentType := some "text/plain",
              body := formatInt t.unix }) := by
  constructor
  · intro hm
    simp [retrieve, hm]
  · intro hm hc
    simp [retrieve, hm, hc, cellLoad]

/-- Witness for C8 on a GET against a cell holding `time.Unix(7, 0)`. -/
theorem retrieve_contract_instance :
    retrieve getReq (some (timeUnix 7)) =
      .ok { status := 200, contentType := some "text/plain",
            body := formatInt (timeUnix 7).unix } :=
  (retrieve_contract getReq (some (timeUnix 7)) (timeUnix 7)).2 rfl rfl

/-- C9: both methods called on a nil `*dataStore` receiver panic with
their fixed messages instead of operating on zeroed memory or
returning a default. -/
theorem nil_dataStore_panics (t : GoTime) :
    dataStore.store none t = .error "writing to uninitialized dataStore" ∧
    dataStore.get none = .error "reading from uninitialized dataStore" :=
  ⟨rfl, rfl⟩

/-- C10: every body `ParseInt` accepts as a non-negative int64 — sign
and leading zeros included — is answered 200, stores `time.Unix(v, 0)`
with zero sub-second part, and a subsequent retrieve returns the
canonical decimal rendering `FormatInt(v, 10)` of the parsed value
rather than the body itself. -/
theorem update_canonicalizes (b : String) (v : Int) (cell : StoreCell)
    (hp : goParseInt10_64 b = some v) (hv : 0 ≤ v)
    (hl : b.utf8ByteSize ≤ maxReqBytes) :
    (update (putReq b) cell).1.status = 200 ∧
    (update (putReq b) cell).2 = some (timeUnix v) ∧
    (timeUnix v).nsec = 0 ∧
    retrieve getReq ((update (putReq b) cell).2) =
      .ok { status := 200, contentType := some "text/plain",
            body := formatInt v } := by
  have hv63 := (goParseInt_range b v hp).2
  have hu := update_ok b cell v hl hp hv
  refine ⟨by rw [hu], by rw [hu], rfl, ?_⟩
  rw [hu]
  simp [retrieve, getReq, cellLoad, unix_timeUnix v (by omega) hv63]

/-- Witness for C10 on the non-canonical body `"+123"`. -/
theorem update_canonicalizes_instance :
    (update (putReq "+123") (some (timeUnix 0))).1.status = 200 ∧
    (update (putReq "+123") (some (timeUnix 0))).2 = some (timeUnix 123) ∧
    (timeUnix 123).nsec = 0 ∧
    retrieve getReq ((update (putReq "+123") (some (timeUnix 0))).2) =
      .ok { status := 200, contentType := some "text/plain",
            body := formatInt 123 } :=
  update_canonicalizes "+123" 123 (some (timeUnix 0)) (by decide) (by decide) (by decide)

end TsStore
